import Mathlib

/-!
Shallow embedding of NSD's NOTIFY-sending engine (src/xfrd-notify.c).

The per-zone session state `notify_zone` mirrors `struct notify_zone_t`:
the C encodes the current target as a pointer into the singly linked acl
list (`notify_current`, NULL when idle); here it is the remaining suffix
of the target list (`[]` when idle).  The socket descriptor
`notify_send_handler.fd` (-1 when absent) is an `Option Nat`; the event
handler's `timeout` pointer (NULL or `&zone->notify_timeout`) is the
Boolean `timeout_enabled`.  External collaborators (the clock
`xfrd_time`, the query id assigned by `xfrd_setup_packet`, and the fd
returned by `xfrd_send_udp`, -1 on failure) enter as an oracle record
`SendEnv`.  Functions that close file descriptors additionally return
the list of descriptors they closed, so socket lifetime is observable.
-/

namespace XfrdNotify

/-- `XFRD_NOTIFY_RETRY_TIMOUT` (sic) from xfrd-notify.c: seconds between
retries sending NOTIFY. -/
def XFRD_NOTIFY_RETRY_TIMOUT : Nat := 15

/-- `XFRD_NOTIFY_MAX_NUM` from xfrd-notify.c: number of attempts to send
NOTIFY to one target. -/
def XFRD_NOTIFY_MAX_NUM : Nat := 5

/-- Modelled from the spec: DNS opcode NOTIFY (RFC 1996); `OPCODE_NOTIFY`
is defined in packet.h, which is not part of this excerpt. -/
def OPCODE_NOTIFY : Nat := 4

/-- Modelled from the spec: DNS response code "no error" (`RCODE_OK`,
packet.h). -/
def RCODE_OK : Nat := 0

/-- Modelled from the spec: DNS response code "not implemented"
(`RCODE_IMPL`, packet.h). -/
def RCODE_IMPL : Nat := 4

/-- Modelled from the spec: the SOA snapshot (`struct xfrd_soa`, xfrd.h,
not part of this excerpt): "serial number and associated SOA fields,
copied (not referenced) into the session".  Only the serial is consulted
by this engine; the remaining fields are collapsed into `fields`, and the
C `memcpy` of the whole struct is value copy of this structure. -/
structure xfrd_soa where
  serial : Nat
  fields : Nat
  deriving DecidableEq

/-- Modelled from the spec: one notify target (`acl_options_t`, an entry
of the zone's notify acl list): an address specifier and an optional
signing-key reference (`key_options`). -/
structure acl_options where
  ip_address_spec : String
  key_options : Option Nat
  deriving DecidableEq

/-- Per-zone notify session, mirroring `struct notify_zone_t`.
`options_notify` is `zone->options->notify`, the configured target list
(empty = notify not configured).  `notify_current` is the remaining
suffix of that list (empty = NULL = idle).  `fd` is
`notify_send_handler.fd` (`none` = -1).  `timeout_enabled` is whether
`notify_send_handler.timeout` points at `notify_timeout` (vs NULL). -/
structure notify_zone where
  options_notify : List acl_options
  current_soa : xfrd_soa
  notify_current : List acl_options
  notify_retry : Nat
  notify_query_id : Nat
  fd : Option Nat
  timeout_enabled : Bool
  notify_timeout_sec : Nat
  notify_timeout_nsec : Nat
  deriving DecidableEq

/-- An incoming UDP reply as the validator reads it: `OPCODE(packet)`,
`QR(packet)`, `ID(packet)`, `RCODE(packet)`. -/
structure ReplyPacket where
  opcode : Nat
  qr : Bool
  id : Nat
  rcode : Nat
  deriving DecidableEq

/-- The observable content of the NOTIFY query built by
`xfrd_notify_send_udp`: assigned id, opcode, AA bit, answer count, the
SOA written into the answer section (if any), and whether a TSIG
signature was applied. -/
structure NotifyPacket where
  id : Nat
  opcode : Nat
  aa : Bool
  ancount : Nat
  answer_soa : Option xfrd_soa
  signed : Bool
  deriving DecidableEq

/-- Oracle for one send attempt: the clock value `xfrd_time()`, the query
id assigned by `xfrd_setup_packet`, and the result of
`xfrd_send_udp` (`none` = failure, fd -1). -/
structure SendEnv where
  now : Nat
  new_id : Nat
  open_result : Option Nat
  deriving DecidableEq

/-- The descriptors a `close(fd)` on this field would close. -/
def closedOf : Option Nat → List Nat
  | some f => [f]
  | none => []

/-- `notify_disable`: close the socket if open, clear the current target,
set fd to -1 and the handler timeout pointer to NULL.  Returns the new
state and the descriptors closed. -/
def notify_disable (z : notify_zone) : notify_zone × List Nat :=
  ({ z with notify_current := [], fd := none, timeout_enabled := false },
   closedOf z.fd)

/-- `xfrd_handle_notify_reply`: decides whether the notify send is done
for the current acl.  Returns `true` (advance: acknowledged, or
"not implemented" so retries are futile) or `false` (reject).  Pure:
reads only `notify_query_id` from the zone. -/
def xfrd_handle_notify_reply (z : notify_zone) (p : ReplyPacket) : Bool :=
  if p.opcode ≠ OPCODE_NOTIFY ∨ p.qr = false then
    false
  else if p.id ≠ z.notify_query_id then
    false
  else if p.rcode ≠ RCODE_OK then
    if p.rcode = RCODE_IMPL then true else false
  else
    true

/-- `xfrd_notify_next`: advance to next acl entry, reset the retry
counter; if no entry remains, disable notify.  Returns the new state and
the descriptors closed. -/
def xfrd_notify_next (z : notify_zone) : notify_zone × List Nat :=
  let z1 := { z with notify_current := z.notify_current.tail,
                     notify_retry := 0 }
  if z1.notify_current = [] then notify_disable z1 else (z1, [])

/-- Placeholder acl used only to express the C dereference of
`zone->notify_current`, which its callers guarantee is non-NULL. -/
def default_acl : acl_options := { ip_address_spec := "", key_options := none }

/-- Result of one `xfrd_notify_send_udp`: the new session state, the
query that was built, and the descriptors closed along the way. -/
structure SendResult where
  zone : notify_zone
  packet : NotifyPacket
  closed : List Nat
  deriving DecidableEq

/-- `xfrd_notify_send_udp`: close any previously open socket; set the
retry deadline to now + 15 s; build the NOTIFY query (opcode NOTIFY, AA
set, one SOA answer record iff the snapshot serial is non-zero, TSIG
signature iff the current target has key options); record the assigned
query id; open a new UDP socket to the current target (fd stays -1 on
failure). -/
def xfrd_notify_send_udp (z : notify_zone) (env : SendEnv) : SendResult :=
  let closed := closedOf z.fd
  let z1 := { z with fd := none,
                     notify_timeout_sec := env.now + XFRD_NOTIFY_RETRY_TIMOUT }
  let acl := z1.notify_current.headD default_acl
  let pkt : NotifyPacket :=
    { id := env.new_id
      opcode := OPCODE_NOTIFY
      aa := true
      ancount := if z1.current_soa.serial ≠ 0 then 1 else 0
      answer_soa := if z1.current_soa.serial ≠ 0 then some z1.current_soa
                    else none
      signed := acl.key_options.isSome }
  let z2 := { z1 with notify_query_id := pkt.id, fd := env.open_result }
  { zone := z2, packet := pkt, closed := closed }

/-- One event-loop callback: a readable socket (with whether
`xfrd_udp_read_packet` succeeded, and the packet read) or a timer
expiry. -/
inductive NetioEvent where
  | read (ok : Bool) (packet : ReplyPacket)
  | timeout
  deriving DecidableEq

/-- The event-handling part of `xfrd_handle_notify_send`, before the
trailing resend: on a readable event, read the reply and, if the
validator says done, advance; on a timer event, increment the retry
counter and advance once it exceeds `XFRD_NOTIFY_MAX_NUM`. -/
def notify_event_step (z : notify_zone) (ev : NetioEvent) :
    notify_zone × List Nat :=
  match ev with
  | NetioEvent.read ok p =>
      if ok then
        if xfrd_handle_notify_reply z p then xfrd_notify_next z
        else (z, [])
      else (z, [])
  | NetioEvent.timeout =>
      let z1 := { z with notify_retry := z.notify_retry + 1 }
      if XFRD_NOTIFY_MAX_NUM < z1.notify_retry then xfrd_notify_next z1
      else (z1, [])

/-- `xfrd_handle_notify_send`, the dispatcher: handle the event
(`notify_event_step`), then, if notify is still enabled
(`notify_current` non-NULL), send again.  The C asserts
`zone->notify_current` non-NULL on entry.  Returns the new state, the
query sent (if any), and the descriptors closed. -/
def xfrd_handle_notify_send (z : notify_zone) (ev : NetioEvent)
    (env : SendEnv) : notify_zone × Option NotifyPacket × List Nat :=
  let step := notify_event_step z ev
  if step.1.notify_current = [] then (step.1, none, step.2)
  else
    let r := xfrd_notify_send_udp step.1 env
    (r.zone, some r.packet, step.2 ++ r.closed)

/-- `xfrd_send_notify` (Arm): if the zone has no notify acl, do nothing;
otherwise copy the new SOA into the session, reset the retry counter,
point `notify_current` at the first acl entry (here: the whole configured
list, whose head is the first target), enable the handler timeout and set
the deadline to now (tv_nsec = 0). -/
def xfrd_send_notify (z : notify_zone) (new_soa : xfrd_soa) (now : Nat) :
    notify_zone :=
  if z.options_notify = [] then z
  else
    { z with
      current_soa := new_soa
      notify_retry := 0
      notify_current := z.options_notify
      timeout_enabled := true
      notify_timeout_sec := now
      notify_timeout_nsec := 0 }

/-- `close_notify_fds` (shutdown_all): for every zone in the registry, if
its socket is open, close it and set fd to -1; touch nothing else.  The
registry (an rbtree iterated in order) is modelled as a list. -/
def close_notify_fds (tree : List notify_zone) : List notify_zone :=
  tree.map (fun z => if z.fd.isSome then { z with fd := none } else z)

/-- One timer-expiry dispatcher step (state part only), used to describe
runs driven solely by timeouts. -/
def timeoutStep (env : SendEnv) (z : notify_zone) : notify_zone :=
  (xfrd_handle_notify_send z NetioEvent.timeout env).1

/-- `k` consecutive timer-expiry dispatcher steps. -/
def timeoutRun (env : SendEnv) : Nat → notify_zone → notify_zone
  | 0, z => z
  | k + 1, z => timeoutRun env k (timeoutStep env z)

/-- Number of retries (timer-driven resends that stay on the same
target) among the first `k` timeout steps. -/
def countTimeoutRetries (env : SendEnv) : Nat → notify_zone → Nat
  | 0, _ => 0
  | k + 1, z =>
      (if (timeoutStep env z).notify_current = z.notify_current then 1
       else 0) + countTimeoutRetries env k (timeoutStep env z)

/-- The spec invariant "current target is none iff socket is absent",
stated as a predicate on sessions; only the direction
"socket present implies a current target" actually holds. -/
def sockInv (z : notify_zone) : Prop := z.fd.isSome → z.notify_current ≠ []

instance (z : notify_zone) : Decidable (sockInv z) := by
  unfold sockInv; infer_instance

/-- Concrete target used by witnesses. -/
def exAcl : acl_options := { ip_address_spec := "192.0.2.1", key_options := none }

/-- Concrete second target used by witnesses. -/
def exAcl2 : acl_options :=
  { ip_address_spec := "192.0.2.2", key_options := some 7 }

/-- Concrete SOA snapshot used by witnesses. -/
def exSoa : xfrd_soa := { serial := 5, fields := 0 }

/-- Concrete idle session (as produced by `init_notify_send` followed by
`notify_disable`) with one configured target, used by witnesses. -/
def exIdleZone : notify_zone :=
  { options_notify := [exAcl]
    current_soa := { serial := 0, fields := 0 }
    notify_current := []
    notify_retry := 0
    notify_query_id := 0
    fd := none
    timeout_enabled := false
    notify_timeout_sec := 0
    notify_timeout_nsec := 0 }

/-- Concrete active session (one target current, retry counter 0, socket
open) used by witnesses. -/
def exActiveZone : notify_zone :=
  { options_notify := [exAcl]
    current_soa := exSoa
    notify_current := [exAcl]
    notify_retry := 0
    notify_query_id := 42
    fd := some 9
    timeout_enabled := true
    notify_timeout_sec := 100
    notify_timeout_nsec := 0 }

/-- Concrete send oracle used by witnesses. -/
def exEnv : SendEnv := { now := 200, new_id := 77, open_result := some 10 }

/-! ## Helper lemmas -/

lemma send_udp_zone_current (z : notify_zone) (env : SendEnv) :
    (xfrd_notify_send_udp z env).zone.notify_current = z.notify_current := rfl

lemma send_udp_zone_retry (z : notify_zone) (env : SendEnv) :
    (xfrd_notify_send_udp z env).zone.notify_retry = z.notify_retry := rfl

lemma send_udp_zone_fd (z : notify_zone) (env : SendEnv) :
    (xfrd_notify_send_udp z env).zone.fd = env.open_result := rfl

lemma send_udp_zone_timeout_sec (z : notify_zone) (env : SendEnv) :
    (xfrd_notify_send_udp z env).zone.notify_timeout_sec =
      env.now + XFRD_NOTIFY_RETRY_TIMOUT := rfl

lemma send_udp_zone_query_id (z : notify_zone) (env : SendEnv) :
    (xfrd_notify_send_udp z env).zone.notify_query_id = env.new_id := rfl

lemma send_udp_packet_id (z : notify_zone) (env : SendEnv) :
    (xfrd_notify_send_udp z env).packet.id = env.new_id := rfl

lemma notify_next_current (z : notify_zone) :
    (xfrd_notify_next z).1.notify_current = z.notify_current.tail := by
  dsimp only [xfrd_notify_next, notify_disable]
  split <;> simp_all

lemma notify_next_retry (z : notify_zone) :
    (xfrd_notify_next z).1.notify_retry = 0 := by
  dsimp only [xfrd_notify_next, notify_disable]
  split <;> simp_all

lemma notify_next_fd (z : notify_zone) :
    (xfrd_notify_next z).1.fd =
      if z.notify_current.tail = [] then none else z.fd := by
  dsimp only [xfrd_notify_next, notify_disable]
  split <;> simp_all

lemma set_fd_none_of_none (z : notify_zone) (h : z.fd = none) :
    { z with fd := none } = z := by
  cases z
  simp_all

/-- The state part of the dispatcher, in terms of the event step. -/
lemma dispatch_fst (z : notify_zone) (ev : NetioEvent) (env : SendEnv) :
    (xfrd_handle_notify_send z ev env).1 =
      if (notify_event_step z ev).1.notify_current = [] then
        (notify_event_step z ev).1
      else (xfrd_notify_send_udp (notify_event_step z ev).1 env).zone := by
  unfold xfrd_handle_notify_send
  split <;> simp_all

/-- The sent-packet part of the dispatcher. -/
lemma dispatch_sent (z : notify_zone) (ev : NetioEvent) (env : SendEnv) :
    (xfrd_handle_notify_send z ev env).2.1 =
      if (notify_event_step z ev).1.notify_current = [] then none
      else some (xfrd_notify_send_udp (notify_event_step z ev).1 env).packet := by
  unfold xfrd_handle_notify_send
  split <;> simp_all

/-- After the dispatcher, the current target is the event step's current
target (the trailing resend never changes it). -/
lemma dispatch_fst_current (z : notify_zone) (ev : NetioEvent) (env : SendEnv) :
    (xfrd_handle_notify_send z ev env).1.notify_current =
      (notify_event_step z ev).1.notify_current := by
  rw [dispatch_fst]
  split <;> simp_all [send_udp_zone_current]

/-- After the dispatcher, the retry counter is the event step's retry
counter (the trailing resend never changes it). -/
lemma dispatch_fst_retry (z : notify_zone) (ev : NetioEvent) (env : SendEnv) :
    (xfrd_handle_notify_send z ev env).1.notify_retry =
      (notify_event_step z ev).1.notify_retry := by
  rw [dispatch_fst]
  split <;> simp_all [send_udp_zone_retry]

/-- Every outcome of the event-handling part: the state is unchanged
(reject or failed read), only the retry counter is bumped (timeout below
the limit), or the step is an advance (`xfrd_notify_next`) from a state
with the same current target. -/
lemma event_step_cases (z : notify_zone) (ev : NetioEvent) :
    (notify_event_step z ev = (z, [])) ∨
    (notify_event_step z ev =
        ({ z with notify_retry := z.notify_retry + 1 }, []) ∧
      z.notify_retry + 1 ≤ XFRD_NOTIFY_MAX_NUM) ∨
    (∃ z1 : notify_zone, notify_event_step z ev = xfrd_notify_next z1 ∧
      z1.notify_current = z.notify_current) := by
  cases ev with
  | read ok p =>
      cases ok
      · left
        rfl
      · by_cases hrep : xfrd_handle_notify_reply z p
        · right
          right
          exact ⟨z, by simp [notify_event_step, hrep], rfl⟩
        · left
          simp [notify_event_step, hrep]
  | timeout =>
      by_cases hm : XFRD_NOTIFY_MAX_NUM < z.notify_retry + 1
      · right
        right
        exact ⟨{ z with notify_retry := z.notify_retry + 1 },
          by simp [notify_event_step, hm], rfl⟩
      · right
        left
        exact ⟨by simp [notify_event_step, hm], by omega⟩

/-- If the event-handling part of a dispatcher invocation (entered with a
current target, as the C asserts) ends idle, it went through
`notify_disable`, so its socket is closed. -/
lemma event_step_idle_fd (z : notify_zone) (ev : NetioEvent)
    (hz : z.notify_current ≠ [])
    (h : (notify_event_step z ev).1.notify_current = []) :
    (notify_event_step z ev).1.fd = none := by
  rcases event_step_cases z ev with hcase | ⟨hcase, _⟩ | ⟨z1, hcase, hc⟩ <;>
    rw [hcase] at h ⊢
  · exact absurd h hz
  · exact absurd h hz
  · rw [notify_next_current] at h
    rw [notify_next_fd, if_pos h]

lemma notify_next_timeout_enabled (z : notify_zone) :
    (xfrd_notify_next z).1.timeout_enabled =
      if z.notify_current.tail = [] then false else z.timeout_enabled := by
  dsimp only [xfrd_notify_next, notify_disable]
  split <;> simp_all

/-- A timer expiry while strictly below the retry limit: same target,
retry counter bumped by one. -/
lemma timeoutStep_below_limit (env : SendEnv) (z : notify_zone)
    (c : acl_options) (rest : List acl_options)
    (h : z.notify_current = c :: rest)
    (hr : z.notify_retry + 1 ≤ XFRD_NOTIFY_MAX_NUM) :
    (timeoutStep env z).notify_current = c :: rest ∧
    (timeoutStep env z).notify_retry = z.notify_retry + 1 := by
  have hm : ¬ XFRD_NOTIFY_MAX_NUM < z.notify_retry + 1 := by omega
  have hstep : notify_event_step z NetioEvent.timeout =
      ({ z with notify_retry := z.notify_retry + 1 }, []) := by
    simp [notify_event_step, hm]
  unfold timeoutStep
  rw [dispatch_fst_current, dispatch_fst_retry, hstep]
  exact ⟨h, rfl⟩

/-- A timer expiry at the retry limit: advance to the rest of the list,
retry counter reset; if no target remains, notify is disabled (socket
closed, timer off). -/
lemma timeoutStep_advance (env : SendEnv) (z : notify_zone)
    (c : acl_options) (rest : List acl_options)
    (h : z.notify_current = c :: rest)
    (hr : z.notify_retry = XFRD_NOTIFY_MAX_NUM) :
    (timeoutStep env z).notify_current = rest ∧
    (timeoutStep env z).notify_retry = 0 ∧
    (rest = [] → (timeoutStep env z).fd = none ∧
      (timeoutStep env z).timeout_enabled = false) := by
  have hm : XFRD_NOTIFY_MAX_NUM < z.notify_retry + 1 := by omega
  have hstep : notify_event_step z NetioEvent.timeout =
      xfrd_notify_next { z with notify_retry := z.notify_retry + 1 } := by
    simp [notify_event_step, hm]
  have htail : ({ z with notify_retry := z.notify_retry + 1 } :
      notify_zone).notify_current.tail = rest := by
    simp [h]
  have hc1 : (xfrd_notify_next
      { z with notify_retry := z.notify_retry + 1 }).1.notify_current =
      rest := by
    rw [notify_next_current, htail]
  unfold timeoutStep
  by_cases hrest : rest = []
  · rw [dispatch_fst, hstep, if_pos (by rw [hc1, hrest])]
    refine ⟨by rw [hc1, hrest], notify_next_retry _, fun _ => ⟨?_, ?_⟩⟩
    · rw [notify_next_fd, htail, if_pos hrest]
    · rw [notify_next_timeout_enabled, htail, if_pos hrest]
  · rw [dispatch_fst, hstep, if_neg (by rw [hc1]; exact hrest)]
    refine ⟨?_, ?_, fun hco => absurd hco hrest⟩
    · rw [send_udp_zone_current, hc1]
    · rw [send_udp_zone_retry, notify_next_retry]

lemma timeoutRun_succ_right (env : SendEnv) (k : Nat) (z : notify_zone) :
    timeoutRun env (k + 1) z = timeoutStep env (timeoutRun env k z) := by
  induction k generalizing z with
  | zero => rfl
  | succ n ih =>
      show timeoutRun env (n + 1) (timeoutStep env z) = _
      rw [ih]
      rfl

lemma timeoutRun_add (env : SendEnv) (a b : Nat) (z : notify_zone) :
    timeoutRun env (a + b) z = timeoutRun env b (timeoutRun env a z) := by
  induction a generalizing z with
  | zero => rw [Nat.zero_add]; rfl
  | succ n ih =>
      have hn : n + 1 + b = (n + b) + 1 := by omega
      rw [hn]
      show timeoutRun env (n + b) (timeoutStep env z) = _
      rw [ih]
      rfl

/-- As long as the retry counter stays at or below the limit, timer
expiries keep the same current target and accumulate in the retry
counter. -/
lemma timeoutRun_small (env : SendEnv) :
    ∀ (k : Nat) (z : notify_zone) (c : acl_options)
      (rest : List acl_options),
      z.notify_current = c :: rest →
      z.notify_retry + k ≤ XFRD_NOTIFY_MAX_NUM →
      (timeoutRun env k z).notify_current = c :: rest ∧
      (timeoutRun env k z).notify_retry = z.notify_retry + k := by
  intro k
  induction k with
  | zero => intro z c rest h _; exact ⟨h, rfl⟩
  | succ n ih =>
      intro z c rest h hr
      have hstep := timeoutStep_below_limit env z c rest h (by omega)
      have hrec := ih (timeoutStep env z) c rest hstep.1
        (by rw [hstep.2]; omega)
      refine ⟨hrec.1, ?_⟩
      show (timeoutRun env n (timeoutStep env z)).notify_retry =
        z.notify_retry + (n + 1)
      rw [hrec.2, hstep.2]
      omega

/-- One full block of `XFRD_NOTIFY_MAX_NUM + 1` timer expiries on one
target: ends past that target with the retry counter reset; if it was the
last target, notify is disabled. -/
lemma timeoutRun_block (env : SendEnv) (z : notify_zone)
    (c : acl_options) (rest : List acl_options)
    (h : z.notify_current = c :: rest) (h0 : z.notify_retry = 0) :
    (timeoutRun env (XFRD_NOTIFY_MAX_NUM + 1) z).notify_current = rest ∧
    (timeoutRun env (XFRD_NOTIFY_MAX_NUM + 1) z).notify_retry = 0 ∧
    (rest = [] →
      (timeoutRun env (XFRD_NOTIFY_MAX_NUM + 1) z).fd = none ∧
      (timeoutRun env (XFRD_NOTIFY_MAX_NUM + 1) z).timeout_enabled
        = false) := by
  have h5 := timeoutRun_small env XFRD_NOTIFY_MAX_NUM z c rest h (by omega)
  have h6 : timeoutRun env (XFRD_NOTIFY_MAX_NUM + 1) z =
      timeoutStep env (timeoutRun env XFRD_NOTIFY_MAX_NUM z) :=
    timeoutRun_succ_right env XFRD_NOTIFY_MAX_NUM z
  rw [h6]
  exact timeoutStep_advance env (timeoutRun env XFRD_NOTIFY_MAX_NUM z)
    c rest h5.1 (by rw [h5.2, h0]; omega)

lemma countTimeoutRetries_add (env : SendEnv) (a b : Nat)
    (z : notify_zone) :
    countTimeoutRetries env (a + b) z =
      countTimeoutRetries env a z +
        countTimeoutRetries env b (timeoutRun env a z) := by
  induction a generalizing z with
  | zero =>
      rw [Nat.zero_add]
      show countTimeoutRetries env b z =
        0 + countTimeoutRetries env b z
      rw [Nat.zero_add]
  | succ n ih =>
      have hn : n + 1 + b = (n + b) + 1 := by omega
      rw [hn]
      show (if (timeoutStep env z).notify_current = z.notify_current then 1
          else 0) + countTimeoutRetries env (n + b) (timeoutStep env z) = _
      rw [ih]
      show _ = (if (timeoutStep env z).notify_current = z.notify_current
          then 1 else 0) + countTimeoutRetries env n (timeoutStep env z) +
        countTimeoutRetries env b (timeoutRun env n (timeoutStep env z))
      rw [Nat.add_assoc]

/-- Every timer expiry strictly below the retry limit is counted as a
retry (a resend to the same target). -/
lemma countTimeoutRetries_small (env : SendEnv) :
    ∀ (k : Nat) (z : notify_zone) (c : acl_options)
      (rest : List acl_options),
      z.notify_current = c :: rest →
      z.notify_retry + k ≤ XFRD_NOTIFY_MAX_NUM →
      countTimeoutRetries env k z = k := by
  intro k
  induction k with
  | zero => intro z c rest _ _; rfl
  | succ n ih =>
      intro z c rest h hr
      have hstep := timeoutStep_below_limit env z c rest h (by omega)
      show (if (timeoutStep env z).notify_current = z.notify_current then 1
          else 0) + countTimeoutRetries env n (timeoutStep env z) = n + 1
      rw [hstep.1, h, if_pos rfl,
        ih (timeoutStep env z) c rest hstep.1 (by rw [hstep.2]; omega)]
      omega

/-- One full block of `XFRD_NOTIFY_MAX_NUM + 1` timer expiries on one
target contains exactly `XFRD_NOTIFY_MAX_NUM` retries: the final expiry
advances, so it is not a retry. -/
lemma countTimeoutRetries_block (env : SendEnv) (z : notify_zone)
    (c : acl_options) (rest : List acl_options)
    (h : z.notify_current = c :: rest) (h0 : z.notify_retry = 0) :
    countTimeoutRetries env (XFRD_NOTIFY_MAX_NUM + 1) z =
      XFRD_NOTIFY_MAX_NUM := by
  rw [countTimeoutRetries_add env XFRD_NOTIFY_MAX_NUM 1 z,
    countTimeoutRetries_small env XFRD_NOTIFY_MAX_NUM z c rest h (by omega)]
  have h5 := timeoutRun_small env XFRD_NOTIFY_MAX_NUM z c rest h (by omega)
  have hadv := timeoutStep_advance env
    (timeoutRun env XFRD_NOTIFY_MAX_NUM z) c rest h5.1
    (by rw [h5.2, h0]; omega)
  show XFRD_NOTIFY_MAX_NUM +
    ((if (timeoutStep env (timeoutRun env XFRD_NOTIFY_MAX_NUM z)
          ).notify_current =
        (timeoutRun env XFRD_NOTIFY_MAX_NUM z).notify_current then 1
      else 0) + 0) = XFRD_NOTIFY_MAX_NUM
  rw [hadv.1, h5.1,
    if_neg (fun heq => List.cons_ne_self c rest heq.symm)]
  omega

/-! ## Claim theorems -/

/-- C2: the reply validator signals advance (acknowledged or give-up,
return value 1 in the C) if and only if the packet's opcode is NOTIFY,
its QR bit is set, its id equals the pending query id, and its rcode is
success or "not implemented"; in every other case it signals reject
(return value 0).  The validator is a pure function of the packet and the
session's pending query id: it performs no state change or I/O. -/
theorem reply_validator_advance_iff (z : notify_zone) (p : ReplyPacket) :
    xfrd_handle_notify_reply z p = true ↔
      (p.opcode = OPCODE_NOTIFY ∧ p.qr = true ∧ p.id = z.notify_query_id ∧
       (p.rcode = RCODE_OK ∨ p.rcode = RCODE_IMPL)) := by
  unfold xfrd_handle_notify_reply
  by_cases h1 : p.opcode = OPCODE_NOTIFY
  · by_cases h2 : p.qr = true
    · by_cases h3 : p.id = z.notify_query_id
      · by_cases h4 : p.rcode = RCODE_OK
        · simp [h1, h2, h3, h4]
        · by_cases h5 : p.rcode = RCODE_IMPL <;>
            simp [h1, h2, h3, h4, h5]
      · simp [h1, h2, h3]
    · rw [Bool.not_eq_true] at h2
      simp [h1, h2]
  · simp [h1]

/-- C5: on a zone with a non-empty configured target list, Arm
(`xfrd_send_notify`) copies the supplied SOA snapshot, resets the retry
counter to 0, points the current target at the first entry of the
configured list, enables the timer and sets the deadline to now,
regardless of the prior session state; on a zone with no configured
target list it changes nothing at all. -/
theorem arm_resets_session (z : notify_zone) (soa : xfrd_soa) (now : Nat) :
    (z.options_notify ≠ [] →
      (xfrd_send_notify z soa now).current_soa = soa ∧
      (xfrd_send_notify z soa now).notify_retry = 0 ∧
      (xfrd_send_notify z soa now).notify_current = z.options_notify ∧
      (xfrd_send_notify z soa now).timeout_enabled = true ∧
      (xfrd_send_notify z soa now).notify_timeout_sec = now ∧
      (xfrd_send_notify z soa now).notify_timeout_nsec = 0) ∧
    (z.options_notify = [] → xfrd_send_notify z soa now = z) := by
  unfold xfrd_send_notify
  constructor <;> intro h <;> simp [h]

/-- Witness for C5 at a concrete armed idle session and a concrete
no-acl session. -/
theorem arm_resets_session_witness :
    (exIdleZone.options_notify ≠ [] ∧
      ((xfrd_send_notify exIdleZone exSoa 100).current_soa = exSoa ∧
       (xfrd_send_notify exIdleZone exSoa 100).notify_retry = 0 ∧
       (xfrd_send_notify exIdleZone exSoa 100).notify_current =
         exIdleZone.options_notify ∧
       (xfrd_send_notify exIdleZone exSoa 100).timeout_enabled = true ∧
       (xfrd_send_notify exIdleZone exSoa 100).notify_timeout_sec = 100 ∧
       (xfrd_send_notify exIdleZone exSoa 100).notify_timeout_nsec = 0)) ∧
    ({ exIdleZone with options_notify := [] }.options_notify = [] ∧
      xfrd_send_notify { exIdleZone with options_notify := [] } exSoa 100 =
        { exIdleZone with options_notify := [] }) :=
  ⟨⟨by decide, (arm_resets_session exIdleZone exSoa 100).1 (by decide)⟩,
   ⟨rfl, (arm_resets_session { exIdleZone with options_notify := [] } exSoa
      100).2 rfl⟩⟩

/-- C9: shutdown (`close_notify_fds`) maps every session of the registry
to the same session with its socket closed (fd absent), and changes
nothing else: membership and order are preserved and every other field of
every session is untouched. -/
theorem shutdown_closes_all_sockets (tree : List notify_zone) :
    close_notify_fds tree = tree.map (fun z => { z with fd := none }) := by
  induction tree with
  | nil => rfl
  | cons z t ih =>
      unfold close_notify_fds at ih ⊢
      simp only [List.map_cons, ih]
      cases hz : z.fd with
      | none => simp [hz, set_fd_none_of_none z hz]
      | some f => simp [hz]

/-- C10: Arm (`xfrd_send_notify`) never closes, opens or replaces the
session's socket and never changes the pending query id: both fields are
preserved exactly, whether or not the zone has a configured target
list. -/
theorem arm_preserves_socket_and_query_id (z : notify_zone)
    (soa : xfrd_soa) (now : Nat) :
    (xfrd_send_notify z soa now).fd = z.fd ∧
    (xfrd_send_notify z soa now).notify_query_id = z.notify_query_id := by
  unfold xfrd_send_notify
  split <;> simp

/-- C1 counterexample: arming a concrete idle zone (one configured
target, no socket) yields a state whose current target is set while its
socket is absent, so "current target is none iff socket is absent" fails
right after Arm. -/
theorem target_iff_socket_fails_after_arm :
    ¬ (((xfrd_send_notify exIdleZone exSoa 100).notify_current = []) ↔
       ((xfrd_send_notify exIdleZone exSoa 100).fd = none)) := by
  decide

/-- C1 amended: only one direction of the invariant holds: after every
transition (Arm, dispatcher event with its trailing resend, shutdown), if
the session's socket is present then its current target is set
(`sockInv`); the converse direction is refuted by
the Arm counterexample (armed session with no socket). -/
theorem socket_implies_target_invariant :
    (∀ z soa now, sockInv z → sockInv (xfrd_send_notify z soa now)) ∧
    (∀ z ev env, z.notify_current ≠ [] →
       sockInv (xfrd_handle_notify_send z ev env).1) ∧
    (∀ tree z1, z1 ∈ close_notify_fds tree → sockInv z1) := by
  refine ⟨?_, ?_, ?_⟩
  · intro z soa now h
    unfold xfrd_send_notify
    split
    · exact h
    · intro _
      simp_all [sockInv]
  · intro z ev env hz
    rw [dispatch_fst]
    by_cases h : (notify_event_step z ev).1.notify_current = []
    · rw [if_pos h]
      intro hfd
      rw [event_step_idle_fd z ev hz h] at hfd
      simp at hfd
    · rw [if_neg h]
      intro _
      rw [send_udp_zone_current]
      exact h
  · intro tree z1 hmem
    rw [shutdown_closes_all_sockets] at hmem
    obtain ⟨z0, _, rfl⟩ := List.mem_map.mp hmem
    intro hfd
    simp at hfd

/-- Witness for C1 amended at concrete inputs: an active session with an
open socket, through Arm, a timer event, and shutdown. -/
theorem socket_implies_target_invariant_witness :
    (sockInv exActiveZone ∧
       sockInv (xfrd_send_notify exActiveZone exSoa 100)) ∧
    (exActiveZone.notify_current ≠ [] ∧
       sockInv (xfrd_handle_notify_send exActiveZone NetioEvent.timeout
         exEnv).1) ∧
    sockInv { exActiveZone with fd := none } :=
  ⟨⟨by decide, socket_implies_target_invariant.1 exActiveZone exSoa 100
      (by decide)⟩,
   ⟨by decide, socket_implies_target_invariant.2.1 exActiveZone
      NetioEvent.timeout exEnv (by decide)⟩,
   socket_implies_target_invariant.2.2 [exActiveZone]
     { exActiveZone with fd := none } (by decide)⟩

/-- C3: the retry counter stays within `[0, XFRD_NOTIFY_MAX_NUM]` after
every completed dispatcher transition (entered, as the C asserts, with a
current target and, inductively, a counter within bounds); and on a
target that only ever times out, the first `XFRD_NOTIFY_MAX_NUM` timer
expiries keep the same target with the counter counting them, while the
`XFRD_NOTIFY_MAX_NUM + 1`-th (sixth) expiry advances past the target and
resets the counter to 0.  (The lower bound 0 is inherent: the counter is
a natural number.) -/
theorem retry_bounded_and_sixth_timeout_advances :
    (∀ (z : notify_zone) (ev : NetioEvent) (env : SendEnv),
       z.notify_retry ≤ XFRD_NOTIFY_MAX_NUM → z.notify_current ≠ [] →
       (xfrd_handle_notify_send z ev env).1.notify_retry ≤
         XFRD_NOTIFY_MAX_NUM) ∧
    (∀ (env : SendEnv) (z : notify_zone) (c : acl_options)
       (rest : List acl_options),
       z.notify_current = c :: rest → z.notify_retry = 0 →
       (∀ k, k ≤ XFRD_NOTIFY_MAX_NUM →
          (timeoutRun env k z).notify_current = c :: rest ∧
          (timeoutRun env k z).notify_retry = k) ∧
       (timeoutRun env (XFRD_NOTIFY_MAX_NUM + 1) z).notify_current
         = rest ∧
       (timeoutRun env (XFRD_NOTIFY_MAX_NUM + 1) z).notify_retry = 0) := by
  constructor
  · intro z ev env hr _
    rw [dispatch_fst_retry]
    rcases event_step_cases z ev with hcase | ⟨hcase, hb⟩ | ⟨z1, hcase, _⟩ <;>
      rw [hcase]
    · exact hr
    · exact hb
    · rw [notify_next_retry]
      omega
  · intro env z c rest h h0
    refine ⟨?_, (timeoutRun_block env z c rest h h0).1,
      (timeoutRun_block env z c rest h h0).2.1⟩
    intro k hk
    have hs := timeoutRun_small env k z c rest h (by omega)
    exact ⟨hs.1, by rw [hs.2, h0]; omega⟩

/-- Witness for C3 at a concrete one-target active session and a timer
event. -/
theorem retry_bounded_and_sixth_timeout_advances_witness :
    (exActiveZone.notify_retry ≤ XFRD_NOTIFY_MAX_NUM ∧
     exActiveZone.notify_current ≠ [] ∧
     (xfrd_handle_notify_send exActiveZone NetioEvent.timeout
        exEnv).1.notify_retry ≤ XFRD_NOTIFY_MAX_NUM) ∧
    (exActiveZone.notify_current = exAcl :: [] ∧
     exActiveZone.notify_retry = 0 ∧
     (timeoutRun exEnv (XFRD_NOTIFY_MAX_NUM + 1)
        exActiveZone).notify_current = [] ∧
     (timeoutRun exEnv (XFRD_NOTIFY_MAX_NUM + 1)
        exActiveZone).notify_retry = 0) :=
  ⟨⟨by decide, by decide,
    retry_bounded_and_sixth_timeout_advances.1 exActiveZone
      NetioEvent.timeout exEnv (by decide) (by decide)⟩,
   ⟨rfl, rfl,
    (retry_bounded_and_sixth_timeout_advances.2 exEnv exActiveZone exAcl []
      rfl rfl).2.1,
    (retry_bounded_and_sixth_timeout_advances.2 exEnv exActiveZone exAcl []
      rfl rfl).2.2⟩⟩

/-- C4: on an active session, a readable event whose reply the validator
rejects leaves the current target and the retry counter unchanged, and
the dispatcher immediately sends again to that same target, recording the
freshly assigned query identifier as the pending one. -/
theorem reject_reply_resends_immediately (z : notify_zone)
    (p : ReplyPacket) (env : SendEnv)
    (hz : z.notify_current ≠ [])
    (hrej : xfrd_handle_notify_reply z p = false) :
    (xfrd_handle_notify_send z (NetioEvent.read true p)
        env).1.notify_current = z.notify_current ∧
    (xfrd_handle_notify_send z (NetioEvent.read true p)
        env).1.notify_retry = z.notify_retry ∧
    (xfrd_handle_notify_send z (NetioEvent.read true p) env).2.1 =
      some (xfrd_notify_send_udp z env).packet ∧
    (xfrd_handle_notify_send z (NetioEvent.read true p)
        env).1.notify_query_id = env.new_id := by
  have hstep : notify_event_step z (NetioEvent.read true p) = (z, []) := by
    simp [notify_event_step, hrej]
  have hfst := dispatch_fst z (NetioEvent.read true p) env
  have hsent := dispatch_sent z (NetioEvent.read true p) env
  rw [hstep] at hfst hsent
  rw [if_neg hz] at hfst hsent
  rw [hfst, hsent]
  exact ⟨send_udp_zone_current z env, send_udp_zone_retry z env, rfl,
    send_udp_zone_query_id z env⟩

/-- Witness for C4: a reply with a mismatched id on a concrete active
session. -/
theorem reject_reply_resends_immediately_witness :
    (exActiveZone.notify_current ≠ [] ∧
     xfrd_handle_notify_reply exActiveZone
       { opcode := 4, qr := true, id := 1, rcode := 0 } = false) ∧
    ((xfrd_handle_notify_send exActiveZone
        (NetioEvent.read true { opcode := 4, qr := true, id := 1, rcode := 0 })
        exEnv).1.notify_current = exActiveZone.notify_current ∧
     (xfrd_handle_notify_send exActiveZone
        (NetioEvent.read true { opcode := 4, qr := true, id := 1, rcode := 0 })
        exEnv).1.notify_retry = exActiveZone.notify_retry ∧
     (xfrd_handle_notify_send exActiveZone
        (NetioEvent.read true { opcode := 4, qr := true, id := 1, rcode := 0 })
        exEnv).2.1 =
       some (xfrd_notify_send_udp exActiveZone exEnv).packet ∧
     (xfrd_handle_notify_send exActiveZone
        (NetioEvent.read true { opcode := 4, qr := true, id := 1, rcode := 0 })
        exEnv).1.notify_query_id = exEnv.new_id) :=
  ⟨⟨by decide, by decide⟩,
   reject_reply_resends_immediately exActiveZone
     { opcode := 4, qr := true, id := 1, rcode := 0 } exEnv (by decide)
     (by decide)⟩

/-- C6: `xfrd_notify_send_udp` on an active session closes exactly the
previously open socket (so at most one socket is ever open: the new state
holds only the newly opened one, or none on failure); the retry deadline
becomes now + 15 seconds for every possible socket-open outcome,
including failure (the timer is armed before the open is attempted); the
built query has opcode NOTIFY, the AA bit set, exactly one SOA answer
record iff the snapshot serial is non-zero, a signature exactly when the
current target has a key; and the query's identifier is recorded as the
pending query id. -/
theorem send_udp_builds_query_and_arms_timer (z : notify_zone)
    (env : SendEnv) (acl : acl_options) (rest : List acl_options)
    (h : z.notify_current = acl :: rest) :
    (xfrd_notify_send_udp z env).closed = closedOf z.fd ∧
    (xfrd_notify_send_udp z env).zone.fd = env.open_result ∧
    (xfrd_notify_send_udp z env).zone.notify_timeout_sec =
      env.now + XFRD_NOTIFY_RETRY_TIMOUT ∧
    (xfrd_notify_send_udp z env).packet.opcode = OPCODE_NOTIFY ∧
    (xfrd_notify_send_udp z env).packet.aa = true ∧
    ((xfrd_notify_send_udp z env).packet.ancount =
      if z.current_soa.serial ≠ 0 then 1 else 0) ∧
    ((xfrd_notify_send_udp z env).packet.answer_soa =
      if z.current_soa.serial ≠ 0 then some z.current_soa else none) ∧
    (xfrd_notify_send_udp z env).packet.signed =
      acl.key_options.isSome ∧
    (xfrd_notify_send_udp z env).zone.notify_query_id =
      (xfrd_notify_send_udp z env).packet.id ∧
    (xfrd_notify_send_udp z env).packet.id = env.new_id := by
  unfold xfrd_notify_send_udp
  simp [h]

/-- Witness for C6 at a concrete active session with an open socket (the
keyed second target current, serial 5). -/
theorem send_udp_builds_query_and_arms_timer_witness :
    ({ exActiveZone with notify_current := [exAcl2] } :
        notify_zone).notify_current = exAcl2 :: [] ∧
    ((xfrd_notify_send_udp { exActiveZone with notify_current := [exAcl2] }
        exEnv).closed =
      closedOf ({ exActiveZone with notify_current := [exAcl2] } :
        notify_zone).fd ∧
     (xfrd_notify_send_udp { exActiveZone with notify_current := [exAcl2] }
        exEnv).zone.fd = exEnv.open_result ∧
     (xfrd_notify_send_udp { exActiveZone with notify_current := [exAcl2] }
        exEnv).zone.notify_timeout_sec =
       exEnv.now + XFRD_NOTIFY_RETRY_TIMOUT ∧
     (xfrd_notify_send_udp { exActiveZone with notify_current := [exAcl2] }
        exEnv).packet.opcode = OPCODE_NOTIFY ∧
     (xfrd_notify_send_udp { exActiveZone with notify_current := [exAcl2] }
        exEnv).packet.aa = true ∧
     ((xfrd_notify_send_udp { exActiveZone with notify_current := [exAcl2] }
        exEnv).packet.ancount =
       if ({ exActiveZone with notify_current := [exAcl2] } :
           notify_zone).current_soa.serial ≠ 0 then 1 else 0) ∧
     ((xfrd_notify_send_udp { exActiveZone with notify_current := [exAcl2] }
        exEnv).packet.answer_soa =
       if ({ exActiveZone with notify_current := [exAcl2] } :
           notify_zone).current_soa.serial ≠ 0 then
         some ({ exActiveZone with notify_current := [exAcl2] } :
           notify_zone).current_soa
       else none) ∧
     (xfrd_notify_send_udp { exActiveZone with notify_current := [exAcl2] }
        exEnv).packet.signed = exAcl2.key_options.isSome ∧
     (xfrd_notify_send_udp { exActiveZone with notify_current := [exAcl2] }
        exEnv).zone.notify_query_id =
       (xfrd_notify_send_udp { exActiveZone with notify_current := [exAcl2] }
         exEnv).packet.id ∧
     (xfrd_notify_send_udp { exActiveZone with notify_current := [exAcl2] }
        exEnv).packet.id = exEnv.new_id) :=
  ⟨rfl, send_udp_builds_query_and_arms_timer
    { exActiveZone with notify_current := [exAcl2] } exEnv exAcl2 [] rfl⟩

/-- C7: whenever the event-handling part of a dispatcher invocation ends
with the session still active (a current target set, which the trailing
resend preserves, so equivalently: the invocation ends active), the
dispatcher has performed a send before returning: it returns the freshly
built query, the pending query id is the freshly assigned one, and the
timer deadline is newly armed to now + 15 seconds. -/
theorem dispatcher_always_resends_while_active (z : notify_zone)
    (ev : NetioEvent) (env : SendEnv)
    (hactive : (xfrd_handle_notify_send z ev env).1.notify_current ≠ []) :
    (xfrd_handle_notify_send z ev env).2.1 =
      some (xfrd_notify_send_udp (notify_event_step z ev).1 env).packet ∧
    (xfrd_handle_notify_send z ev env).1.notify_query_id = env.new_id ∧
    (xfrd_handle_notify_send z ev env).1.notify_timeout_sec =
      env.now + XFRD_NOTIFY_RETRY_TIMOUT := by
  have h : (notify_event_step z ev).1.notify_current ≠ [] := by
    rw [dispatch_fst_current] at hactive
    exact hactive
  refine ⟨?_, ?_, ?_⟩
  · rw [dispatch_sent, if_neg h]
  · rw [dispatch_fst, if_neg h, send_udp_zone_query_id]
  · rw [dispatch_fst, if_neg h, send_udp_zone_timeout_sec]

/-- Witness for C7: a timer event on a concrete active session that stays
active (first of six timeouts). -/
theorem dispatcher_always_resends_while_active_witness :
    ((xfrd_handle_notify_send exActiveZone NetioEvent.timeout
        exEnv).1.notify_current ≠ []) ∧
    ((xfrd_handle_notify_send exActiveZone NetioEvent.timeout exEnv).2.1 =
       some (xfrd_notify_send_udp
         (notify_event_step exActiveZone NetioEvent.timeout).1
         exEnv).packet ∧
     (xfrd_handle_notify_send exActiveZone NetioEvent.timeout
        exEnv).1.notify_query_id = exEnv.new_id ∧
     (xfrd_handle_notify_send exActiveZone NetioEvent.timeout
        exEnv).1.notify_timeout_sec =
       exEnv.now + XFRD_NOTIFY_RETRY_TIMOUT) :=
  ⟨by decide, dispatcher_always_resends_while_active exActiveZone
    NetioEvent.timeout exEnv (by decide)⟩

/-- C8: an armed session (current target = the whole non-empty configured
list, retry counter 0) driven only by timer expiries reaches Idle (no
current target, no socket, timer off) after exactly
`(XFRD_NOTIFY_MAX_NUM + 1) * |target list|` events — in particular after
finitely many — and the total number of retries over the whole run is
bounded by `XFRD_NOTIFY_MAX_NUM * |target list|`. -/
theorem timeout_run_terminates_with_bounded_retries :
    ∀ (env : SendEnv) (ts : List acl_options) (z : notify_zone),
      z.notify_current = ts → z.notify_retry = 0 → ts ≠ [] →
      (timeoutRun env ((XFRD_NOTIFY_MAX_NUM + 1) * ts.length)
          z).notify_current = [] ∧
      (timeoutRun env ((XFRD_NOTIFY_MAX_NUM + 1) * ts.length) z).fd
        = none ∧
      (timeoutRun env ((XFRD_NOTIFY_MAX_NUM + 1) * ts.length)
          z).timeout_enabled = false ∧
      countTimeoutRetries env ((XFRD_NOTIFY_MAX_NUM + 1) * ts.length) z ≤
        XFRD_NOTIFY_MAX_NUM * ts.length := by
  intro env ts
  induction ts with
  | nil => intro z _ _ hne; exact absurd rfl hne
  | cons c rest ih =>
      intro z h h0 _
      have hlen : (XFRD_NOTIFY_MAX_NUM + 1) * (c :: rest).length =
          (XFRD_NOTIFY_MAX_NUM + 1) +
            (XFRD_NOTIFY_MAX_NUM + 1) * rest.length := by
        rw [List.length_cons]
        ring
      have hblock := timeoutRun_block env z c rest h h0
      have hcount := countTimeoutRetries_block env z c rest h h0
      by_cases hrest : rest = []
      · subst hrest
        have hone : (XFRD_NOTIFY_MAX_NUM + 1) *
            ((c :: [] : List acl_options)).length =
            XFRD_NOTIFY_MAX_NUM + 1 := by
          simp
        rw [hone]
        refine ⟨hblock.1, (hblock.2.2 rfl).1, (hblock.2.2 rfl).2, ?_⟩
        rw [hcount]
        simp [XFRD_NOTIFY_MAX_NUM]
      · have ihr := ih (timeoutRun env (XFRD_NOTIFY_MAX_NUM + 1) z)
          hblock.1 hblock.2.1 hrest
        rw [hlen, timeoutRun_add, countTimeoutRetries_add]
        refine ⟨ihr.1, ihr.2.1, ihr.2.2.1, ?_⟩
        have hb := ihr.2.2.2
        rw [hcount, List.length_cons]
        unfold XFRD_NOTIFY_MAX_NUM at hb ⊢
        omega

/-- Witness for C8: a freshly armed concrete one-target session goes idle
within six timer events with at most five retries. -/
theorem timeout_run_terminates_witness :
    (exActiveZone.notify_current = ([exAcl] : List acl_options) ∧
     exActiveZone.notify_retry = 0 ∧
     ([exAcl] : List acl_options) ≠ []) ∧
    ((timeoutRun exEnv
        ((XFRD_NOTIFY_MAX_NUM + 1) * ([exAcl] : List acl_options).length)
        exActiveZone).notify_current = [] ∧
     (timeoutRun exEnv
        ((XFRD_NOTIFY_MAX_NUM + 1) * ([exAcl] : List acl_options).length)
        exActiveZone).fd = none ∧
     (timeoutRun exEnv
        ((XFRD_NOTIFY_MAX_NUM + 1) * ([exAcl] : List acl_options).length)
        exActiveZone).timeout_enabled = false ∧
     countTimeoutRetries exEnv
        ((XFRD_NOTIFY_MAX_NUM + 1) * ([exAcl] : List acl_options).length)
        exActiveZone ≤
       XFRD_NOTIFY_MAX_NUM * ([exAcl] : List acl_options).length) :=
  ⟨⟨rfl, rfl, by decide⟩,
   timeout_run_terminates_with_bounded_retries exEnv [exAcl] exActiveZone
     rfl rfl (by decide)⟩

end XfrdNotify
